import Mathlib

/-!
Shallow embedding of `invenio_communities/roles.py`: the `Role` dataclass and
the `RoleRegistry` class, together with proofs of the specification's
properties P1-P7, the worked scenario, and the construction-time behaviour.

Modelling notes:
* A Python `dict` is an insertion-ordered associative structure with unique
  keys; it is embedded as a `List (String × _)` of its entries in order.
* `assert` failures and raised exceptions during `__init__` are embedded as
  `Except` errors: an error value means no registry object is produced.
* `__getitem__`'s `KeyError` on a missing key is embedded as `Option.none`
  (the NotFound condition of the spec).
-/

set_option autoImplicit false

namespace InvenioRoles

/-- The `Role` frozen dataclass of `roles.py`: five fields with the defaults
given in the source (`name`, `title`, `description` default to the empty
string, `can_manage_roles` to the empty list, `is_owner` to `False`). -/
structure Role where
  name : String := ""
  title : String := ""
  description : String := ""
  can_manage_roles : List String := []
  is_owner : Bool := false
deriving DecidableEq

/-- The method `Role.can_manage`: `role_name in self.can_manage_roles`. -/
def Role.can_manage (r : Role) (role_name : String) : Bool :=
  r.can_manage_roles.contains role_name

/-- The dataclass-generated `__eq__` of `Role`: `@dataclass(frozen=True)`
defaults to `eq=True` and the class does not define `__eq__` itself, so
equality compares the tuple of all five fields. -/
def Role.pyEq (a b : Role) : Bool :=
  a.name == b.name && a.title == b.title && a.description == b.description
    && a.can_manage_roles == b.can_manage_roles && a.is_owner == b.is_owner

/-- The explicit `Role.__hash__` of the source: `self.name.__hash__()`.
The class defines `__hash__` in its body, so the dataclass machinery keeps it
(it only generates a hash when none is written). Python's string hash is
embedded by Lean's string hash; all that matters is that it is a function of
the name alone. -/
def Role.pyHash (r : Role) : UInt64 :=
  r.name.hash

/-- One entry of the `roles_definitions` configuration mapping, carrying the
keyword arguments accepted by the `Role` constructor other than `name`
(which `RoleRegistry.__init__` injects from the mapping key). Defaults are
the dataclass field defaults. -/
structure RoleParams where
  title : String := ""
  description : String := ""
  can_manage_roles : List String := []
  is_owner : Bool := false
deriving DecidableEq

/-- The call `Role(name=name, **data)` for a well-formed record `data`: builds the
role with the mapping key injected as its `name`. -/
def mkRoleT (name : String) (p : RoleParams) : Role :=
  { name := name
    title := p.title
    description := p.description
    can_manage_roles := p.can_manage_roles
    is_owner := p.is_owner }

/-- The fatal construction-time failures of `RoleRegistry.__init__`:
the two `assert` messages of the source. -/
inductive InitError where
  /-- Message "Only one role be defined as owner." -/
  | multipleOwners
  /-- Message "One role must be defined as owner." -/
  | noOwner
  /-- A `TypeError` raised while building a `Role` from a malformed record
  (e.g. an unexpected keyword argument); carries the message. -/
  | typeError (msg : String)
deriving DecidableEq

/-- The state of a constructed `RoleRegistry`: the `_roles` dict (name to
`Role`, insertion order), and the cached `_owner` role. -/
structure RoleRegistry where
  _roles : List (String × Role)
  _owner : Role
deriving DecidableEq

/-- The owner-scan loop of `RoleRegistry.__init__`:
`for r in self._roles.values(): if r.is_owner: assert self._owner is None;
self._owner = r`.  The accumulator is the current value of `self._owner`. -/
def scanOwner : List Role → Option Role → Except InitError (Option Role)
  | [], acc => .ok acc
  | r :: rest, acc =>
    if r.is_owner then
      match acc with
      | some _ => .error .multipleOwners
      | none => scanOwner rest (some r)
    else
      scanOwner rest acc

/-- The constructor `RoleRegistry.__init__` on a configuration of well-formed records: builds
`{name: Role(name=name, **data) for (name, data) in roles_definitions.items()}`,
runs the owner scan, and fails on the final assert when no owner was found.
An `Except.error` result means the constructor raised: no registry value is
produced. -/
def RoleRegistry.init (config : List (String × RoleParams)) :
    Except InitError RoleRegistry :=
  match scanOwner ((config.map fun e => (e.1, mkRoleT e.1 e.2)).map Prod.snd) none with
  | .error e => .error e
  | .ok none => .error .noOwner
  | .ok (some o) => .ok ⟨config.map fun e => (e.1, mkRoleT e.1 e.2), o⟩

/-- The test `key in dict` over the embedded `_roles` dict. -/
def dictContains : List (String × Role) → String → Bool
  | [], _ => false
  | (k, _) :: rest, key => if k == key then true else dictContains rest key

/-- The lookup `dict[key]` over the embedded `_roles` dict; `none` is the raised
`KeyError` (the NotFound condition). -/
def dictGet : List (String × Role) → String → Option Role
  | [], _ => none
  | (k, v) :: rest, key => if k == key then some v else dictGet rest key

/-- The method `RoleRegistry.__contains__`. -/
def RoleRegistry.contains (reg : RoleRegistry) (key : String) : Bool :=
  dictContains reg._roles key

/-- The method `RoleRegistry.__getitem__`; `none` is the NotFound failure. -/
def RoleRegistry.get (reg : RoleRegistry) (key : String) : Option Role :=
  dictGet reg._roles key

/-- The `roles` property: `self._roles.values()` in insertion order. -/
def RoleRegistry.rolesList (reg : RoleRegistry) : List Role :=
  reg._roles.map Prod.snd

/-- The `owner_role` property: the cached `_owner`. -/
def RoleRegistry.owner_role (reg : RoleRegistry) : Role :=
  reg._owner

/-- The loop body of `manager_roles`: `allowed_roles = []`, then
`for role in self.roles: if role.can_manage(role_name):
allowed_roles.append(role)`. -/
def managerLoop (roles : List Role) (role_name : String)
    (allowed_roles : List Role) : List Role :=
  match roles with
  | [] => allowed_roles
  | role :: rest =>
    if role.can_manage role_name then
      managerLoop rest role_name (allowed_roles ++ [role])
    else
      managerLoop rest role_name allowed_roles

/-- The method `RoleRegistry.manager_roles`. -/
def RoleRegistry.manager_roles (reg : RoleRegistry) (role_name : String) :
    List Role :=
  managerLoop reg.rolesList role_name []

/-- The configuration entries whose record sets `is_owner = true`. -/
def ownerEntries (config : List (String × RoleParams)) :
    List (String × RoleParams) :=
  config.filter fun e => e.2.is_owner

/-! ### Keyword-argument level model of construction

`RoleRegistry.__init__` builds each role as `Role(name=name, **data)`: the
record's keys are forwarded verbatim as keyword arguments.  To reason about
this we also embed the call at the keyword level, where a record is an
arbitrary association of string keys to values. -/

/-- A Python value appearing in a configuration record: the embedding
restricts records to values of the declared field types (a string, a list of
role names, or a boolean) — Python performs no runtime type check, but
ill-typed field values are outside the behaviour the spec describes. -/
inductive PyVal where
  | vstr (s : String)
  | vlist (l : List String)
  | vbool (b : Bool)
deriving DecidableEq

/-- The keyword arguments of a `Role(...)` call as they are bound one by
one: `none` means the argument was not supplied (the dataclass default
applies). -/
structure KwArgs where
  title : Option PyVal := none
  description : Option PyVal := none
  can_manage_roles : Option PyVal := none
  is_owner : Option PyVal := none
deriving DecidableEq

/-- Binding of a single keyword argument `k=v` of the call
`Role(name=name, **data)`.  A key `"name"` raises `TypeError` (`name` already
has a value), a key that is none of the dataclass fields raises `TypeError`
(unexpected keyword argument); otherwise the value is bound. -/
def applyKw (st : KwArgs) (k : String) (v : PyVal) : Except String KwArgs :=
  if k = "name" then
    .error "Role() got multiple values for argument name"
  else if k = "title" then
    .ok { st with title := some v }
  else if k = "description" then
    .ok { st with description := some v }
  else if k = "can_manage_roles" then
    .ok { st with can_manage_roles := some v }
  else if k = "is_owner" then
    .ok { st with is_owner := some v }
  else
    .error "Role() got an unexpected keyword argument"

/-- Binding of all keyword arguments of `Role(name=name, **data)` in order
(a Python dict has unique keys, so each key is seen at most once). -/
def bindKw : List (String × PyVal) → KwArgs → Except String KwArgs
  | [], st => .ok st
  | (k, v) :: rest, st =>
    match applyKw st k v with
    | .error e => .error e
    | .ok st2 => bindKw rest st2

/-- The call `Role(name=name, **data)` at the keyword level: bind all keyword
arguments, apply the dataclass defaults for missing ones, and build the
role.  The final typing step keeps the model inside well-typed field
values. -/
def mkRoleKw (name : String) (data : List (String × PyVal)) :
    Except String Role :=
  match bindKw data {} with
  | .error e => .error e
  | .ok st =>
    match st.title.getD (.vstr ""), st.description.getD (.vstr ""),
        st.can_manage_roles.getD (.vlist []), st.is_owner.getD (.vbool false) with
    | .vstr t, .vstr d, .vlist l, .vbool b =>
      .ok { name := name, title := t, description := d,
            can_manage_roles := l, is_owner := b }
    | _, _, _, _ => .error "ill-typed field value"

/-- The dict comprehension of `__init__` at the keyword level: the first
entry whose `Role(...)` call raises aborts the whole construction. -/
def buildRolesKw :
    List (String × List (String × PyVal)) → Except String (List (String × Role))
  | [] => .ok []
  | (n, d) :: rest =>
    match mkRoleKw n d with
    | .error e => .error e
    | .ok r =>
      match buildRolesKw rest with
      | .error e => .error e
      | .ok rs => .ok ((n, r) :: rs)

/-- The constructor `RoleRegistry.__init__` at the keyword level: build the roles dict (a
raised `TypeError` aborts construction), then run the owner scan. -/
def RoleRegistry.initKw (config : List (String × List (String × PyVal))) :
    Except InitError RoleRegistry :=
  match buildRolesKw config with
  | .error m => .error (.typeError m)
  | .ok roles =>
    match scanOwner (roles.map Prod.snd) none with
    | .error e => .error e
    | .ok none => .error .noOwner
    | .ok (some o) => .ok ⟨roles, o⟩

/-- The keyword arguments the `Role` constructor accepts besides `name`:
exactly the remaining dataclass fields. -/
def allowedRoleKeys : List String :=
  ["title", "description", "can_manage_roles", "is_owner"]

/-- A record of well-formed parameters, spelled as the keyword arguments it
induces. -/
def encodeParams (p : RoleParams) : List (String × PyVal) :=
  [("title", .vstr p.title), ("description", .vstr p.description),
   ("can_manage_roles", .vlist p.can_manage_roles),
   ("is_owner", .vbool p.is_owner)]

/-! ### Concrete configurations used in the scenario and in witnesses -/

/-- The spec's worked scenario configuration, in its insertion order. -/
def scenarioConfig : List (String × RoleParams) :=
  [("reader", {}),
   ("curator", { can_manage_roles := ["reader"] }),
   ("manager", { can_manage_roles := ["reader", "curator"] }),
   ("owner", { can_manage_roles := ["reader", "curator", "manager", "owner"],
               is_owner := true })]

/-- A two-entry configuration with a single owner, whose `can_manage_roles`
lists contain names that are not keys of the mapping (dangling names). -/
def cfgDangling : List (String × RoleParams) :=
  [("reader", { can_manage_roles := ["ghost"] }),
   ("owner", { can_manage_roles := ["owner", "phantom"], is_owner := true })]

/-- A configuration with no `is_owner = true` entry. -/
def cfgNoOwner : List (String × RoleParams) :=
  [("reader", {}), ("curator", { can_manage_roles := ["reader"] })]

/-- A configuration with two `is_owner = true` entries. -/
def cfgTwoOwners : List (String × RoleParams) :=
  [("owner", { is_owner := true }), ("boss", { is_owner := true })]

/-- A keyword-level configuration whose record uses the key `can_manage`
(the field name of the spec's external-interface section) instead of the
dataclass field name `can_manage_roles`. -/
def cfgCanManageKey : List (String × List (String × PyVal)) :=
  [("owner", [("can_manage", .vlist ["owner"]), ("is_owner", .vbool true)])]

/-- Two roles sharing a name but differing in every other field. -/
def roleReaderA : Role :=
  { name := "reader", title := "Reader" }

/-- Second role with the same name as `roleReaderA` but different other
fields. -/
def roleReaderB : Role :=
  { name := "reader", title := "Another title", description := "differs",
    can_manage_roles := ["reader"], is_owner := true }

/-- The owner role built by the scenario configuration. -/
def scenarioOwnerRole : Role :=
  mkRoleT "owner"
    { can_manage_roles := ["reader", "curator", "manager", "owner"],
      is_owner := true }

/-- The registry value the scenario configuration constructs. -/
def scenarioReg : RoleRegistry :=
  ⟨scenarioConfig.map fun e => (e.1, mkRoleT e.1 e.2), scenarioOwnerRole⟩

/-- A one-role registry used to exercise the lookup operations. -/
def regSample : RoleRegistry :=
  ⟨[("reader", roleReaderA)], roleReaderA⟩

/-! ## Helper lemmas -/

@[simp]
theorem mkRoleT_name (n : String) (p : RoleParams) : (mkRoleT n p).name = n :=
  rfl

@[simp]
theorem mkRoleT_is_owner (n : String) (p : RoleParams) :
    (mkRoleT n p).is_owner = p.is_owner :=
  rfl

@[simp]
theorem mkRoleT_can_manage_roles (n : String) (p : RoleParams) :
    (mkRoleT n p).can_manage_roles = p.can_manage_roles :=
  rfl

theorem managerLoop_eq (roles : List Role) (n : String) :
    ∀ acc, managerLoop roles n acc =
      acc ++ roles.filter (fun r => r.can_manage n) := by
  induction roles with
  | nil => intro acc; simp [managerLoop]
  | cons r rest ih =>
    intro acc
    cases h : r.can_manage n <;> simp [managerLoop, h, ih]

theorem scanOwner_keep_of_filter_nil (rs : List Role) (acc : Option Role)
    (h : rs.filter (fun r => r.is_owner) = []) : scanOwner rs acc = .ok acc := by
  induction rs with
  | nil => rfl
  | cons r rest ih =>
    cases hr : r.is_owner with
    | true => simp [List.filter_cons, hr] at h
    | false =>
      simp only [List.filter_cons, hr, if_neg, Bool.false_eq_true,
        not_false_iff, ite_false] at h
      simp only [scanOwner, hr, Bool.false_eq_true, if_false]
      exact ih h

theorem scanOwner_some_err_of_filter_ne (rs : List Role) (o : Role)
    (h : rs.filter (fun r => r.is_owner) ≠ []) :
    scanOwner rs (some o) = .error .multipleOwners := by
  induction rs with
  | nil => simp at h
  | cons r rest ih =>
    cases hr : r.is_owner with
    | true => simp [scanOwner, hr]
    | false =>
      simp only [List.filter_cons, hr, Bool.false_eq_true, if_false] at h
      simp only [scanOwner, hr, Bool.false_eq_true, if_false]
      exact ih h

theorem scanOwner_none_single (rs : List Role) (o : Role)
    (h : rs.filter (fun r => r.is_owner) = [o]) :
    scanOwner rs none = .ok (some o) := by
  induction rs with
  | nil => simp at h
  | cons r rest ih =>
    cases hr : r.is_owner with
    | true =>
      have h' : r :: rest.filter (fun r => r.is_owner) = [o] := by
        simpa [List.filter_cons, hr] using h
      injection h' with h1 h2
      subst h1
      simp only [scanOwner, hr, if_true]
      exact scanOwner_keep_of_filter_nil rest (some r) h2
    | false =>
      have h' : rest.filter (fun r => r.is_owner) = [o] := by
        simpa [List.filter_cons, hr] using h
      simp only [scanOwner, hr, Bool.false_eq_true, if_false]
      exact ih h'

theorem scanOwner_none_multi (rs : List Role)
    (h : 2 ≤ (rs.filter (fun r => r.is_owner)).length) :
    scanOwner rs none = .error .multipleOwners := by
  induction rs with
  | nil => simp at h
  | cons r rest ih =>
    cases hr : r.is_owner with
    | true =>
      have h' : rest.filter (fun r => r.is_owner) ≠ [] := by
        intro hnil
        simp [List.filter_cons, hr, hnil] at h
      simp only [scanOwner, hr, if_true]
      exact scanOwner_some_err_of_filter_ne rest r h'
    | false =>
      have h' : 2 ≤ (rest.filter (fun r => r.is_owner)).length := by
        simpa [List.filter_cons, hr] using h
      simp only [scanOwner, hr, Bool.false_eq_true, if_false]
      exact ih h'

theorem builtRoles_filter (config : List (String × RoleParams)) :
    ((config.map fun e => (e.1, mkRoleT e.1 e.2)).map Prod.snd).filter
        (fun r => r.is_owner) =
      (ownerEntries config).map fun e => mkRoleT e.1 e.2 := by
  induction config with
  | nil => rfl
  | cons e rest ih =>
    simp only [ownerEntries, List.map_map] at ih ⊢
    cases hr : e.2.is_owner <;>
      simp [List.filter_cons, hr, ih]

theorem init_ok_singleton (config : List (String × RoleParams)) (nm : String)
    (p : RoleParams) (h : ownerEntries config = [(nm, p)]) :
    RoleRegistry.init config =
      .ok ⟨config.map fun e => (e.1, mkRoleT e.1 e.2), mkRoleT nm p⟩ := by
  have hf : ((config.map fun e => (e.1, mkRoleT e.1 e.2)).map Prod.snd).filter
      (fun r => r.is_owner) = [mkRoleT nm p] := by
    rw [builtRoles_filter, h]
    rfl
  unfold RoleRegistry.init
  rw [scanOwner_none_single _ _ hf]

theorem rolesList_map (config : List (String × RoleParams)) (o : Role) :
    RoleRegistry.rolesList ⟨config.map fun e => (e.1, mkRoleT e.1 e.2), o⟩ =
      config.map fun e => mkRoleT e.1 e.2 := by
  simp [RoleRegistry.rolesList, List.map_map]

theorem dictContains_eq_isSome (l : List (String × Role)) (n : String) :
    dictContains l n = (dictGet l n).isSome := by
  induction l with
  | nil => rfl
  | cons kv rest ih =>
    obtain ⟨k, v⟩ := kv
    cases hk : (k == n) <;> simp [dictContains, dictGet, hk, ih]

theorem dictGet_mem (l : List (String × Role)) (n : String) (r : Role)
    (h : dictGet l n = some r) : (n, r) ∈ l := by
  induction l with
  | nil => simp [dictGet] at h
  | cons kv rest ih =>
    obtain ⟨k, v⟩ := kv
    cases hk : (k == n) with
    | true =>
      have hkn : k = n := by simpa using hk
      simp [dictGet, hk] at h
      subst hkn
      subst h
      exact List.mem_cons_self _ _
    | false =>
      simp [dictGet, hk] at h
      exact List.mem_cons_of_mem _ (ih h)

theorem can_manage_of_mem (r : Role) (d : String)
    (h : d ∈ r.can_manage_roles) : r.can_manage d = true := by
  simp [Role.can_manage]
  exact h

theorem applyKw_error_of_bad (st : KwArgs) (k : String) (v : PyVal)
    (h : k ∉ allowedRoleKeys) : ∃ m, applyKw st k v = .error m := by
  simp only [allowedRoleKeys, List.mem_cons, List.not_mem_nil, or_false,
    not_or] at h
  obtain ⟨ht, hd, hc, ho⟩ := h
  by_cases hn : k = "name"
  · exact ⟨"Role() got multiple values for argument name", by simp [applyKw, hn]⟩
  · refine ⟨"Role() got an unexpected keyword argument", ?_⟩
    simp [applyKw, hn, ht, hd, hc, ho]

theorem bindKw_error_of_bad (data : List (String × PyVal)) (k : String)
    (v : PyVal) (hmem : (k, v) ∈ data) (h : k ∉ allowedRoleKeys) :
    ∀ st, ∃ m, bindKw data st = .error m := by
  induction data with
  | nil => simp at hmem
  | cons p rest ih =>
    intro st
    obtain ⟨k', v'⟩ := p
    rcases List.mem_cons.mp hmem with heq | hmem'
    · injection heq with e1 e2
      subst e1
      subst e2
      obtain ⟨m, hm⟩ := applyKw_error_of_bad st k v h
      exact ⟨m, by simp [bindKw, hm]⟩
    · cases happ : applyKw st k' v' with
      | error e => exact ⟨e, by simp [bindKw, happ]⟩
      | ok st2 =>
        obtain ⟨m, hm⟩ := ih hmem' st2
        exact ⟨m, by simp [bindKw, happ, hm]⟩

theorem buildRolesKw_error_of_bad
    (config : List (String × List (String × PyVal))) (n : String)
    (d : List (String × PyVal)) (k : String) (v : PyVal)
    (h1 : (n, d) ∈ config) (h2 : (k, v) ∈ d) (h3 : k ∉ allowedRoleKeys) :
    ∃ m, buildRolesKw config = .error m := by
  induction config with
  | nil => simp at h1
  | cons e rest ih =>
    obtain ⟨n', d'⟩ := e
    rcases List.mem_cons.mp h1 with heq | hmem
    · injection heq with e1 e2
      subst e1
      subst e2
      obtain ⟨m, hm⟩ := bindKw_error_of_bad d k v h2 h3 {}
      exact ⟨m, by simp [buildRolesKw, mkRoleKw, hm]⟩
    · cases hmk : mkRoleKw n' d' with
      | error e2 => exact ⟨e2, by simp [buildRolesKw, hmk]⟩
      | ok r =>
        obtain ⟨m, hm⟩ := ih hmem
        exact ⟨m, by simp [buildRolesKw, hmk, hm]⟩

/-- Coherence of the two levels of the construction model: a well-formed
record, spelled as keyword arguments, builds exactly the role the typed
model builds. -/
theorem mkRoleKw_encode (n : String) (p : RoleParams) :
    mkRoleKw n (encodeParams p) = .ok (mkRoleT n p) :=
  rfl

/-! ## Claim theorems -/

/-- C1: for every registry and name, `manager_roles` equals the filter of
`roles` by the `can_manage` predicate — exactly the roles that can manage
the name, in the relative order of `roles` (in particular a sublist of
`roles`).  The function is total, so the single linear scan never fails. -/
theorem manager_roles_eq_filter (reg : RoleRegistry) (n : String) :
    reg.manager_roles n = reg.rolesList.filter (fun r => r.can_manage n) ∧
    (reg.manager_roles n).Sublist reg.rolesList := by
  have h : reg.manager_roles n =
      reg.rolesList.filter (fun r => r.can_manage n) := by
    simpa [RoleRegistry.manager_roles] using managerLoop_eq reg.rolesList n []
  refine ⟨h, ?_⟩
  rw [h]
  exact List.filter_sublist _

/-- C2: construction fails fatally when the configuration has zero
`is_owner = true` entries (the final assert) and when it has two or more
(the assert inside the scan loop); in both cases the result is an error and
no registry value is produced. -/
theorem init_fails_on_owner_count (config : List (String × RoleParams)) :
    (ownerEntries config = [] → RoleRegistry.init config = .error .noOwner) ∧
    (2 ≤ (ownerEntries config).length →
      RoleRegistry.init config = .error .multipleOwners) := by
  constructor
  · intro h
    have hf : ((config.map fun e => (e.1, mkRoleT e.1 e.2)).map Prod.snd).filter
        (fun r => r.is_owner) = [] := by
      simp only [builtRoles_filter, h, List.map_nil]
    unfold RoleRegistry.init
    rw [scanOwner_keep_of_filter_nil _ _ hf]
  · intro h
    have hf : 2 ≤ (((config.map fun e => (e.1, mkRoleT e.1 e.2)).map
        Prod.snd).filter (fun r => r.is_owner)).length := by
      rw [builtRoles_filter]
      simpa using h
    unfold RoleRegistry.init
    rw [scanOwner_none_multi _ hf]

/-- Witness for C2 at two concrete configurations: one with no owner entry
and one with two owner entries. -/
theorem init_fails_on_owner_count_witness :
    RoleRegistry.init cfgNoOwner = .error .noOwner ∧
    RoleRegistry.init cfgTwoOwners = .error .multipleOwners :=
  ⟨(init_fails_on_owner_count cfgNoOwner).1 (by decide),
   (init_fails_on_owner_count cfgTwoOwners).2 (by decide)⟩

/-- C3: for every configuration with exactly one `is_owner = true` entry,
construction succeeds, the cached `owner_role` is the role built from that
entry, and the registry holds one role per entry (so `owner_role` is a
total read once the registry exists). -/
theorem init_unique_owner (config : List (String × RoleParams)) (nm : String)
    (p : RoleParams) (h : ownerEntries config = [(nm, p)]) :
    ∃ reg, RoleRegistry.init config = .ok reg ∧
      reg.owner_role = mkRoleT nm p ∧
      reg.rolesList = config.map fun e => mkRoleT e.1 e.2 :=
  ⟨_, init_ok_singleton config nm p h, rfl, rolesList_map config _⟩

/-- Witness for C3 at the scenario configuration. -/
theorem init_unique_owner_witness :
    ∃ reg, RoleRegistry.init scenarioConfig = .ok reg ∧
      reg.owner_role =
        mkRoleT "owner"
          { can_manage_roles := ["reader", "curator", "manager", "owner"],
            is_owner := true } ∧
      reg.rolesList = scenarioConfig.map fun e => mkRoleT e.1 e.2 :=
  init_unique_owner scenarioConfig "owner"
    { can_manage_roles := ["reader", "curator", "manager", "owner"],
      is_owner := true } (by decide)

/-- C4: membership testing agrees with lookup — `key in registry` holds
exactly when `registry[key]` succeeds; on an absent key the lookup fails
with the NotFound condition, and on a present key it returns the stored
role. -/
theorem contains_iff_get_succeeds (reg : RoleRegistry) (n : String) :
    (reg.contains n = true ↔ ∃ r, reg.get n = some r) ∧
    (reg.contains n = false → reg.get n = none) ∧
    (∀ r, reg.get n = some r → (n, r) ∈ reg._roles) := by
  have h := dictContains_eq_isSome reg._roles n
  refine ⟨?_, ?_, fun r hr => dictGet_mem reg._roles n r hr⟩
  · unfold RoleRegistry.contains RoleRegistry.get
    rw [h]
    exact Option.isSome_iff_exists
  · unfold RoleRegistry.contains RoleRegistry.get
    rw [h]
    intro h2
    cases ho : dictGet reg._roles n with
    | none => rfl
    | some r => rw [ho] at h2; simp at h2

/-- Witness for C4 on a concrete registry: a missing key fails with
NotFound, and a successful lookup returns a stored role. -/
theorem contains_iff_get_succeeds_witness :
    regSample.get "ghost" = none ∧
    ("reader", roleReaderA) ∈ regSample._roles :=
  ⟨(contains_iff_get_succeeds regSample "ghost").2.1 (by decide),
   (contains_iff_get_succeeds regSample "reader").2.2 roleReaderA (by decide)⟩

/-- C5: `can_manage` holds exactly when the queried name is a member of
`can_manage_roles`; it is a total pure function, so an unknown or
unregistered name simply yields `false`. -/
theorem can_manage_iff_mem (r : Role) (n : String) :
    r.can_manage n = true ↔ n ∈ r.can_manage_roles := by
  simp [Role.can_manage]

/-- C6 counterexample: two roles with the same `name` but different other
fields are NOT equal under the dataclass-generated `__eq__` (which compares
all five fields), even though their hashes agree — refuting the claim that
same-name roles always compare equal. -/
theorem same_name_roles_not_pyEq :
    roleReaderA.name = roleReaderB.name ∧
    Role.pyHash roleReaderA = Role.pyHash roleReaderB ∧
    Role.pyEq roleReaderA roleReaderB = false :=
  ⟨rfl, rfl, by decide⟩

/-- C6 amended: hashing depends on the `name` field only — same-name roles
hash identically — but equality is the full structural dataclass equality:
two roles compare equal iff all five fields agree (so same-name roles with
different other fields are unequal while hashing identically). -/
theorem role_hash_by_name_eq_structural (a b : Role) :
    (a.name = b.name → a.pyHash = b.pyHash) ∧
    (a.pyEq b = true ↔
      a.name = b.name ∧ a.title = b.title ∧ a.description = b.description ∧
        a.can_manage_roles = b.can_manage_roles ∧ a.is_owner = b.is_owner) := by
  constructor
  · intro h
    unfold Role.pyHash
    rw [h]
  · simp [Role.pyEq, and_assoc]

/-- Witness for the amended C6 at two concrete same-name roles. -/
theorem role_hash_by_name_eq_structural_witness :
    Role.pyHash roleReaderA = Role.pyHash roleReaderB :=
  (role_hash_by_name_eq_structural roleReaderA roleReaderB).1 rfl

/-- C7: every successfully constructed registry iterates its roles in the
insertion order of the configuration — `roles` is exactly the entrywise
built role list, and its name sequence equals the configuration's key
sequence in order.  (The model is pure, so re-iteration is trivially
stable.) -/
theorem roles_insertion_order (config : List (String × RoleParams))
    (reg : RoleRegistry) (h : RoleRegistry.init config = .ok reg) :
    reg.rolesList = (config.map fun e => mkRoleT e.1 e.2) ∧
    reg.rolesList.map Role.name = config.map Prod.fst := by
  have hreg : ∃ o, reg = ⟨config.map fun e => (e.1, mkRoleT e.1 e.2), o⟩ := by
    unfold RoleRegistry.init at h
    cases hs : scanOwner ((config.map fun e => (e.1, mkRoleT e.1 e.2)).map
        Prod.snd) none with
    | error e =>
      rw [hs] at h
      exact absurd h (by simp)
    | ok oo =>
      rw [hs] at h
      cases oo with
      | none => exact absurd h (by simp)
      | some o =>
        have h2 : (Except.ok ⟨config.map fun e => (e.1, mkRoleT e.1 e.2), o⟩ :
            Except InitError RoleRegistry) = .ok reg := h
        injection h2 with h3
        exact ⟨o, h3.symm⟩
  obtain ⟨o, rfl⟩ := hreg
  refine ⟨rolesList_map config o, ?_⟩
  rw [rolesList_map config o, List.map_map]
  rfl

/-- Witness for C7 at the scenario configuration. -/
theorem roles_insertion_order_witness :
    RoleRegistry.rolesList scenarioReg =
      (scenarioConfig.map fun e => mkRoleT e.1 e.2) ∧
    (RoleRegistry.rolesList scenarioReg).map Role.name =
      scenarioConfig.map Prod.fst :=
  roles_insertion_order scenarioConfig scenarioReg rfl

/-- C8: the spec's worked scenario — the registry built from the
reader/curator/manager/owner configuration has `"owner"` as its owner
role's name, returns the three manager lists in the stated order, and
fails with NotFound on `"nonexistent"`. -/
theorem scenario_behaviour :
    ∃ reg, RoleRegistry.init scenarioConfig = .ok reg ∧
      reg.owner_role.name = "owner" ∧
      reg.manager_roles "reader" =
        [mkRoleT "curator" { can_manage_roles := ["reader"] },
         mkRoleT "manager" { can_manage_roles := ["reader", "curator"] },
         scenarioOwnerRole] ∧
      reg.manager_roles "owner" = [scenarioOwnerRole] ∧
      reg.manager_roles "manager" = [scenarioOwnerRole] ∧
      reg.get "nonexistent" = none :=
  ⟨scenarioReg, rfl, rfl, by decide, by decide, by decide, by decide⟩

/-- C9: construction does not validate that `can_manage_roles` names refer
to roles present in the registry — any configuration with exactly one
owner entry is accepted, each entry's role (with its `can_manage_roles`
kept verbatim) is in the registry, and `can_manage` answers `true` on every
listed name, dangling or not. -/
theorem init_ignores_dangling_names (config : List (String × RoleParams))
    (h : (ownerEntries config).length = 1) :
    ∃ reg, RoleRegistry.init config = .ok reg ∧
      ∀ e ∈ config, mkRoleT e.1 e.2 ∈ reg.rolesList ∧
        ∀ d ∈ e.2.can_manage_roles, (mkRoleT e.1 e.2).can_manage d = true := by
  obtain ⟨x, hx⟩ := List.length_eq_one.mp h
  obtain ⟨nm, p⟩ := x
  refine ⟨_, init_ok_singleton config nm p hx, ?_⟩
  intro e he
  constructor
  · rw [rolesList_map]
    exact List.mem_map_of_mem _ he
  · intro d hd
    exact can_manage_of_mem _ _ hd

/-- Witness for C9 at a configuration whose `can_manage_roles` lists name
only dangling roles (`"ghost"`, `"phantom"`). -/
theorem init_ignores_dangling_names_witness :
    ∃ reg, RoleRegistry.init cfgDangling = .ok reg ∧
      ∀ e ∈ cfgDangling, mkRoleT e.1 e.2 ∈ reg.rolesList ∧
        ∀ d ∈ e.2.can_manage_roles, (mkRoleT e.1 e.2).can_manage d = true :=
  init_ignores_dangling_names cfgDangling (by decide)

/-- C10: `__init__` forwards each record's keys verbatim as `Role(...)`
keyword arguments, so any record containing a key other than `title`,
`description`, `can_manage_roles` or `is_owner` makes construction raise a
`TypeError` and produce no registry. -/
theorem initKw_rejects_unknown_keys
    (config : List (String × List (String × PyVal))) (n : String)
    (d : List (String × PyVal)) (k : String) (v : PyVal)
    (h1 : (n, d) ∈ config) (h2 : (k, v) ∈ d) (h3 : k ∉ allowedRoleKeys) :
    ∃ m, RoleRegistry.initKw config = .error (.typeError m) := by
  obtain ⟨m, hm⟩ := buildRolesKw_error_of_bad config n d k v h1 h2 h3
  exact ⟨m, by simp [RoleRegistry.initKw, hm]⟩

/-- Witness for C10: a record using the key `can_manage` (the spec's
external-interface field name) instead of `can_manage_roles` is rejected. -/
theorem initKw_rejects_unknown_keys_witness :
    ∃ m, RoleRegistry.initKw cfgCanManageKey = .error (.typeError m) :=
  initKw_rejects_unknown_keys cfgCanManageKey "owner"
    [("can_manage", .vlist ["owner"]), ("is_owner", .vbool true)]
    "can_manage" (.vlist ["owner"])
    (by simp [cfgCanManageKey]) (by simp) (by decide)

end InvenioRoles
